import Mathlib

/-!
Shallow embedding of `src/server/embedding.py`, a single-shot CLI adapter:

```
def main():
    try:
        input_text = sys.stdin.read()
        texts = json.loads(input_text)
        model = SentenceTransformer('all-MiniLM-L6-v2')
        embeddings = model.encode(texts)
        embeddings_list = embeddings.tolist()
        print(json.dumps(embeddings_list))
    except Exception as e:
        print(f"Error: {str(e)}", file=sys.stderr)
        sys.exit(1)
```

The program itself is a straight line of fallible calls into external
libraries (`json`, `sentence_transformers`, `numpy`) wrapped in one
`try/except`.  We embed the libraries as abstract capabilities in an
environment record (each fallible call returns `Except String _`, the
`String` being the Python exception's textual description `str(e)`),
and `main` as a pure function of the environment and the stdin text.
The result records the stdout lines, the stderr lines, the exit code,
and — so that claims about how often `model.encode` is invoked can be
stated — the trace of arguments passed to `encode`.
-/

/-- A Python/JSON value as produced by `json.loads`: `null`, booleans,
numbers (modelled as rationals), strings, arrays and objects. -/
inductive JValue where
  | null
  | bool (b : Bool)
  | num (q : ℚ)
  | str (s : String)
  | arr (elems : List JValue)
  | obj (fields : List (String × JValue))

/-- A numpy `ndarray` of floats as returned by `model.encode`: a nested
structure of numeric axes (`encode` returns a 2-D array for a list of
sentences and a 1-D array for a single sentence). -/
inductive NDArr where
  | scalar (q : ℚ)
  | axis (elems : List NDArr)

mutual

/-- `ndarray.tolist()`: converts the nested numeric array into plain
nested lists of numbers (a `JValue`); it is total, as in numpy. -/
def NDArr.tolist : NDArr → JValue
  | .scalar q => .num q
  | .axis xs => .arr (NDArr.tolistAll xs)

/-- `tolist` mapped over the elements of an axis. -/
def NDArr.tolistAll : List NDArr → List JValue
  | [] => []
  | x :: xs => x.tolist :: NDArr.tolistAll xs

end

/-- The external world `main` calls into.  Every member models one
library call of the source; a `.error e` result models that call
raising a Python exception with `str(e) = e`. -/
structure Env where
  /-- `json.loads`: parse a text as JSON.  `.ok v` means the text is
  valid JSON denoting `v`; `.error e` means `json.loads` raises. -/
  loads : String → Except String JValue
  /-- `SentenceTransformer('all-MiniLM-L6-v2')`: loading the model
  either raises or yields the collaborator's `encode` capability,
  which itself either raises or returns an `ndarray`. -/
  loadModel : Except String (JValue → Except String NDArr)
  /-- `json.dumps`: serialize a value, or raise. -/
  dumps : JValue → Except String String
  /-- `print(s)`: `some e` means printing `s` to stdout raises `e`
  (e.g. a broken pipe); `none` means it writes the line. -/
  printExc : String → Option String

/-- The observable outcome of one process run. -/
structure RunResult where
  /-- Arguments passed to the collaborator's `encode`, in call order. -/
  encodeCalls : List JValue
  /-- Lines written to standard output (each `print` is one line). -/
  stdout : List String
  /-- Lines written to standard error. -/
  stderr : List String
  /-- The process exit code. -/
  exitCode : Nat

/-- The `except` handler of the source: print `Error: <str(e)>` to
stderr and exit 1, with the given `encode`-call trace so far. -/
def failWith (calls : List JValue) (e : String) : RunResult :=
  { encodeCalls := calls, stdout := [], stderr := ["Error: " ++ e], exitCode := 1 }

/-- The embedding of `main` from `src/server/embedding.py`: read stdin,
`json.loads` it, load the model, `encode` the parsed value, `tolist`
the result, `json.dumps` it, `print` it; any failure along the way is
caught by the single `try/except`, which prints one `Error:` line to
stderr and exits 1.  On success the process exits 0. -/
def Embedding.main (env : Env) (stdin : String) : RunResult :=
  match env.loads stdin with
  | .error e => failWith [] e
  | .ok texts =>
    match env.loadModel with
    | .error e => failWith [] e
    | .ok encode =>
      match encode texts with
      | .error e => failWith [texts] e
      | .ok embeddings =>
        match env.dumps embeddings.tolist with
        | .error e => failWith [texts] e
        | .ok line =>
          match env.printExc line with
          | some e => failWith [texts] e
          | none =>
            { encodeCalls := [texts], stdout := [line], stderr := [], exitCode := 0 }

/-- The shape the spec's Parse step demands of the request: a JSON
array all of whose elements are strings. -/
def isStringArray : JValue → Bool
  | .arr xs => xs.all fun v => match v with | .str _ => true | _ => false
  | _ => false

/-- A per-string embedding vector rendered as a JSON array of numbers. -/
def vecToJson (v : List ℚ) : JValue := .arr (v.map .num)

/-- A 2-D `ndarray` holding one row per vector, as `model.encode`
returns for a list of sentences. -/
def rowsToNDArr (vecs : List (List ℚ)) : NDArr :=
  .axis (vecs.map fun v => .axis (v.map .scalar))

/-! ### Concrete instances used by witnesses and counterexamples

`loadsEx` is `json.loads` restricted to the handful of concrete inputs
the witnesses exercise (each mapping is exactly what `json.loads`
returns on that text); `encodeEx` is a deterministic stand-in for the
collaborator, mirroring `SentenceTransformer.encode`'s documented
shape behaviour: a list of sentences yields a 2-D array with one row
per element, a single string yields a 1-D array, and other input types
make it raise. -/

def loadsEx : String → Except String JValue := fun s =>
  if s = "[]" then .ok (.arr [])
  else if s = "[\"hello\", \"world\"]" then
    .ok (.arr [.str "hello", .str "world"])
  else if s = "\"hello\"" then .ok (.str "hello")
  else if s = "5" then .ok (.num 5)
  else .error "Expecting value: line 1 column 1 (char 0)"

def encodeEx : JValue → Except String NDArr
  | .str _ => .ok (.axis [.scalar 1, .scalar 0])
  | .arr xs => .ok (.axis (xs.map fun _ => .axis [.scalar 1, .scalar 0]))
  | _ => .error "0"

def dumpsEx : JValue → Except String String
  | .arr [] => .ok "[]"
  | .arr (.arr _ :: _) => .ok "[[1.0, 0.0], [1.0, 0.0]]"
  | .arr (.num _ :: _) => .ok "[1.0, 0.0]"
  | _ => .ok "null"

def envEx : Env :=
  { loads := loadsEx, loadModel := .ok encodeEx, dumps := dumpsEx,
    printExc := fun _ => none }

/-- A world identical to `envEx` except that `json.dumps` raises. -/
def envDumpsErr : Env := { envEx with dumps := fun _ => .error "Circular reference detected" }

/-- A world identical to `envEx` except that `print` raises. -/
def envPrintErr : Env := { envEx with printExc := fun _ => some "Broken pipe" }

/-! ### Helper lemmas characterising each branch of `main` -/

theorem main_loads_error (env : Env) (stdin e : String)
    (h : env.loads stdin = .error e) :
    Embedding.main env stdin = failWith [] e := by
  simp [Embedding.main, h]

theorem main_model_error (env : Env) (stdin e : String) (v : JValue)
    (h1 : env.loads stdin = .ok v) (h2 : env.loadModel = .error e) :
    Embedding.main env stdin = failWith [] e := by
  simp [Embedding.main, h1, h2]

theorem main_encode_error (env : Env) (stdin e : String) (v : JValue)
    (enc : JValue → Except String NDArr)
    (h1 : env.loads stdin = .ok v) (h2 : env.loadModel = .ok enc)
    (h3 : enc v = .error e) :
    Embedding.main env stdin = failWith [v] e := by
  simp [Embedding.main, h1, h2, h3]

theorem main_dumps_error (env : Env) (stdin e : String) (v : JValue)
    (enc : JValue → Except String NDArr) (a : NDArr)
    (h1 : env.loads stdin = .ok v) (h2 : env.loadModel = .ok enc)
    (h3 : enc v = .ok a) (h4 : env.dumps a.tolist = .error e) :
    Embedding.main env stdin = failWith [v] e := by
  simp [Embedding.main, h1, h2, h3, h4]

theorem main_print_error (env : Env) (stdin e line : String) (v : JValue)
    (enc : JValue → Except String NDArr) (a : NDArr)
    (h1 : env.loads stdin = .ok v) (h2 : env.loadModel = .ok enc)
    (h3 : enc v = .ok a) (h4 : env.dumps a.tolist = .ok line)
    (h5 : env.printExc line = some e) :
    Embedding.main env stdin = failWith [v] e := by
  simp [Embedding.main, h1, h2, h3, h4, h5]

theorem main_success (env : Env) (stdin line : String) (v : JValue)
    (enc : JValue → Except String NDArr) (a : NDArr)
    (h1 : env.loads stdin = .ok v) (h2 : env.loadModel = .ok enc)
    (h3 : enc v = .ok a) (h4 : env.dumps a.tolist = .ok line)
    (h5 : env.printExc line = none) :
    Embedding.main env stdin =
      { encodeCalls := [v], stdout := [line], stderr := [], exitCode := 0 } := by
  simp [Embedding.main, h1, h2, h3, h4, h5]

theorem tolistAll_eq_map (xs : List NDArr) :
    NDArr.tolistAll xs = xs.map NDArr.tolist := by
  induction xs with
  | nil => rfl
  | cons x xs ih => simp [NDArr.tolistAll, ih]

theorem row_tolist (v : List ℚ) :
    (NDArr.axis (v.map .scalar)).tolist = vecToJson v := by
  simp only [NDArr.tolist, tolistAll_eq_map, vecToJson, List.map_map]
  rfl

theorem rowsToNDArr_tolist (vecs : List (List ℚ)) :
    (rowsToNDArr vecs).tolist = .arr (vecs.map vecToJson) := by
  simp only [rowsToNDArr, NDArr.tolist, tolistAll_eq_map, List.map_map]
  exact congrArg JValue.arr (List.map_congr_left fun v _ => row_tolist v)

/-! ### Claim theorems -/

/-- C2: for every stdin text on which `json.loads` raises (the bytes
are not valid JSON), the program writes nothing to standard output,
writes exactly one standard-error line beginning with `Error:`, exits
with code 1, and never invokes the collaborator's `encode`. -/
theorem invalid_json_rejected (env : Env) (stdin e : String)
    (h : env.loads stdin = .error e) :
    (Embedding.main env stdin).stdout = [] ∧
    (Embedding.main env stdin).stderr = ["Error: " ++ e] ∧
    (Embedding.main env stdin).exitCode = 1 ∧
    (Embedding.main env stdin).encodeCalls = [] := by
  rw [main_loads_error env stdin e h]
  exact ⟨rfl, rfl, rfl, rfl⟩

/-- Witness for C2 at the spec's own example `not json`, in the
concrete world `envEx`. -/
theorem invalid_json_rejected_witness :
    envEx.loads "not json" = .error "Expecting value: line 1 column 1 (char 0)" ∧
    ((Embedding.main envEx "not json").stdout = [] ∧
      (Embedding.main envEx "not json").stderr =
        ["Error: Expecting value: line 1 column 1 (char 0)"] ∧
      (Embedding.main envEx "not json").exitCode = 1 ∧
      (Embedding.main envEx "not json").encodeCalls = []) :=
  ⟨rfl, invalid_json_rejected envEx "not json" "Expecting value: line 1 column 1 (char 0)" rfl⟩

/-- C4: the input `[]` parses to the empty array; given that the
collaborator maps the empty batch to the empty array of vectors and
serialization and printing behave as `json.dumps`/`print` do on it,
the program prints the single line `[]` and exits 0. -/
theorem empty_input_empty_output (env : Env)
    (enc : JValue → Except String NDArr)
    (h1 : env.loads "[]" = .ok (.arr []))
    (h2 : env.loadModel = .ok enc)
    (h3 : enc (.arr []) = .ok (.axis []))
    (h4 : env.dumps (.arr []) = .ok "[]")
    (h5 : env.printExc "[]" = none) :
    Embedding.main env "[]" =
      { encodeCalls := [.arr []], stdout := ["[]"], stderr := [], exitCode := 0 } :=
  main_success env "[]" "[]" (.arr []) enc (.axis []) h1 h2 h3 h4 h5

/-- Witness for C4 in the concrete world `envEx`. -/
theorem empty_input_empty_output_witness :
    envEx.loads "[]" = .ok (.arr []) ∧
    Embedding.main envEx "[]" =
      { encodeCalls := [.arr []], stdout := ["[]"], stderr := [], exitCode := 0 } :=
  ⟨rfl, empty_input_empty_output envEx encodeEx rfl rfl rfl rfl rfl⟩

/-- C5: every run exits 0 (with empty stderr) or exits 1 with exactly
one stderr line of the form `Error: ` followed by the failure's
description; there is no third exit code and no distinction in exit
code between failure kinds. -/
theorem exit_code_dichotomy (env : Env) (stdin : String) :
    ((Embedding.main env stdin).exitCode = 0 ∧
      (Embedding.main env stdin).stderr = []) ∨
    ((Embedding.main env stdin).exitCode = 1 ∧
      ∃ e, (Embedding.main env stdin).stderr = ["Error: " ++ e]) := by
  rcases h1 : env.loads stdin with e | v
  · rw [main_loads_error env stdin e h1]; exact Or.inr ⟨rfl, e, rfl⟩
  · rcases h2 : env.loadModel with e | enc
    · rw [main_model_error env stdin e v h1 h2]; exact Or.inr ⟨rfl, e, rfl⟩
    · rcases h3 : enc v with e | a
      · rw [main_encode_error env stdin e v enc h1 h2 h3]
        exact Or.inr ⟨rfl, e, rfl⟩
      · rcases h4 : env.dumps a.tolist with e | line
        · rw [main_dumps_error env stdin e v enc a h1 h2 h3 h4]
          exact Or.inr ⟨rfl, e, rfl⟩
        · rcases h5 : env.printExc line with _ | e
          · rw [main_success env stdin line v enc a h1 h2 h3 h4 h5]
            exact Or.inl ⟨rfl, rfl⟩
          · rw [main_print_error env stdin e line v enc a h1 h2 h3 h4 h5]
            exact Or.inr ⟨rfl, e, rfl⟩

/-- C6: whenever the input parses to an array of strings and the model
loads, the collaborator's `encode` is invoked exactly once, with the
full ordered batch of parsed strings as its argument. -/
theorem encode_called_once (env : Env) (stdin : String) (strs : List String)
    (enc : JValue → Except String NDArr)
    (h1 : env.loads stdin = .ok (.arr (strs.map .str)))
    (h2 : env.loadModel = .ok enc) :
    (Embedding.main env stdin).encodeCalls = [.arr (strs.map .str)] := by
  rcases h3 : enc (.arr (strs.map .str)) with e | a
  · rw [main_encode_error env stdin e _ enc h1 h2 h3]; rfl
  · rcases h4 : env.dumps a.tolist with e | line
    · rw [main_dumps_error env stdin e _ enc a h1 h2 h3 h4]; rfl
    · rcases h5 : env.printExc line with _ | e
      · rw [main_success env stdin line _ enc a h1 h2 h3 h4 h5]
      · rw [main_print_error env stdin e line _ enc a h1 h2 h3 h4 h5]; rfl

/-- Witness for C6 on the two-string batch in `envEx`. -/
theorem encode_called_once_witness :
    envEx.loads "[\"hello\", \"world\"]" =
      .ok (.arr ((["hello", "world"] : List String).map .str)) ∧
    (Embedding.main envEx "[\"hello\", \"world\"]").encodeCalls =
      [.arr ((["hello", "world"] : List String).map .str)] :=
  ⟨rfl, encode_called_once envEx "[\"hello\", \"world\"]" ["hello", "world"] encodeEx rfl rfl⟩

/-- C7: on every successful run (exit code 0) standard output receives
exactly one line and standard error receives nothing. -/
theorem success_single_line (env : Env) (stdin : String)
    (h : (Embedding.main env stdin).exitCode = 0) :
    (∃ line, (Embedding.main env stdin).stdout = [line]) ∧
    (Embedding.main env stdin).stderr = [] := by
  rcases h1 : env.loads stdin with e | v
  · rw [main_loads_error env stdin e h1] at h; exact absurd h (by simp [failWith])
  · rcases h2 : env.loadModel with e | enc
    · rw [main_model_error env stdin e v h1 h2] at h
      exact absurd h (by simp [failWith])
    · rcases h3 : enc v with e | a
      · rw [main_encode_error env stdin e v enc h1 h2 h3] at h
        exact absurd h (by simp [failWith])
      · rcases h4 : env.dumps a.tolist with e | line
        · rw [main_dumps_error env stdin e v enc a h1 h2 h3 h4] at h
          exact absurd h (by simp [failWith])
        · rcases h5 : env.printExc line with _ | e
          · rw [main_success env stdin line v enc a h1 h2 h3 h4 h5]
            exact ⟨⟨line, rfl⟩, rfl⟩
          · rw [main_print_error env stdin e line v enc a h1 h2 h3 h4 h5] at h
            exact absurd h (by simp [failWith])

/-- Witness for C7 on the successful run of `envEx` on `[]`. -/
theorem success_single_line_witness :
    (Embedding.main envEx "[]").exitCode = 0 ∧
    ((∃ line, (Embedding.main envEx "[]").stdout = [line]) ∧
      (Embedding.main envEx "[]").stderr = []) :=
  ⟨rfl, success_single_line envEx "[]" rfl⟩

/-- Whenever parsing and model load succeed, `encode` is invoked
exactly once, on the parsed value, regardless of what happens later. -/
theorem main_calls_single (env : Env) (stdin : String) (v : JValue)
    (enc : JValue → Except String NDArr)
    (h1 : env.loads stdin = .ok v) (h2 : env.loadModel = .ok enc) :
    (Embedding.main env stdin).encodeCalls = [v] := by
  rcases h3 : enc v with e | a
  · rw [main_encode_error env stdin e v enc h1 h2 h3]; rfl
  · rcases h4 : env.dumps a.tolist with e | line
    · rw [main_dumps_error env stdin e v enc a h1 h2 h3 h4]; rfl
    · rcases h5 : env.printExc line with _ | e
      · rw [main_success env stdin line v enc a h1 h2 h3 h4 h5]
      · rw [main_print_error env stdin e line v enc a h1 h2 h3 h4 h5]; rfl

/-- C1 counterexample: the text `"hello"` is valid JSON whose value is
not an array of strings, yet the run does not fail at the Parse step —
`encode` IS invoked on the parsed value, and (the collaborator
accepting a single string, as `SentenceTransformer.encode` does) the
run prints the serialized vector and exits 0, with empty stderr. -/
theorem wrong_shape_counterexample :
    envEx.loads "\"hello\"" = .ok (.str "hello") ∧
    isStringArray (.str "hello") = false ∧
    (Embedding.main envEx "\"hello\"").encodeCalls = [JValue.str "hello"] ∧
    (Embedding.main envEx "\"hello\"").stdout = ["[1.0, 0.0]"] ∧
    (Embedding.main envEx "\"hello\"").stderr = [] ∧
    (Embedding.main envEx "\"hello\"").exitCode = 0 :=
  ⟨rfl, rfl, rfl, rfl, rfl, rfl⟩

/-- C1 (amended): valid JSON that is not an array of strings is NOT
rejected by the program's Parse step.  Provided the model loads, the
parsed value is forwarded to the collaborator's `encode`; the run
fails with an `Error:` line and exit code 1 exactly when `encode` (or
a later step) raises, and when `encode` and the remaining steps accept
the value the run emits output and exits 0. -/
theorem wrong_shape_forwarded (env : Env) (stdin : String) (v : JValue)
    (enc : JValue → Except String NDArr)
    (h1 : env.loads stdin = .ok v)
    (_hv : isStringArray v = false)
    (h2 : env.loadModel = .ok enc) :
    (Embedding.main env stdin).encodeCalls = [v] ∧
    (∀ e, enc v = .error e → Embedding.main env stdin = failWith [v] e) ∧
    (∀ a line, enc v = .ok a → env.dumps a.tolist = .ok line →
      env.printExc line = none →
      Embedding.main env stdin =
        { encodeCalls := [v], stdout := [line], stderr := [], exitCode := 0 }) :=
  ⟨main_calls_single env stdin v enc h1 h2,
   fun e h3 => main_encode_error env stdin e v enc h1 h2 h3,
   fun a line h3 h4 h5 => main_success env stdin line v enc a h1 h2 h3 h4 h5⟩

/-- Witness for the amended C1 on the top-level string input. -/
theorem wrong_shape_forwarded_witness :
    envEx.loads "\"hello\"" = .ok (.str "hello") ∧
    isStringArray (.str "hello") = false ∧
    (Embedding.main envEx "\"hello\"").encodeCalls = [JValue.str "hello"] ∧
    Embedding.main envEx "\"hello\"" =
      { encodeCalls := [.str "hello"], stdout := ["[1.0, 0.0]"],
        stderr := [], exitCode := 0 } := by
  have h := wrong_shape_forwarded envEx "\"hello\"" (.str "hello") encodeEx rfl rfl rfl
  exact ⟨rfl, rfl, h.1, h.2.2 (.axis [.scalar 1, .scalar 0]) "[1.0, 0.0]" rfl rfl rfl⟩

/-- C3: for a valid JSON array of strings, when the collaborator
returns one fixed-length vector per input string in input order (a 2-D
array with `vecs.length = strs.length` rows), the emitted line is the
serialization of a JSON array of the same length as the request, whose
`i`-th element is the serialized vector for `request[i]`, with
per-vector element order preserved by `tolist`. -/
theorem shape_preservation (env : Env) (stdin : String) (strs : List String)
    (enc : JValue → Except String NDArr) (vecs : List (List ℚ)) (d : ℕ)
    (line : String)
    (h1 : env.loads stdin = .ok (.arr (strs.map .str)))
    (h2 : env.loadModel = .ok enc)
    (h3 : enc (.arr (strs.map .str)) = .ok (rowsToNDArr vecs))
    (hlen : vecs.length = strs.length)
    (_hdim : ∀ v ∈ vecs, v.length = d)
    (h4 : env.dumps (.arr (vecs.map vecToJson)) = .ok line)
    (h5 : env.printExc line = none) :
    (Embedding.main env stdin).stdout = [line] ∧
    (Embedding.main env stdin).exitCode = 0 ∧
    (vecs.map vecToJson).length = strs.length ∧
    ∀ i (hi : i < vecs.length) (hi2 : i < (vecs.map vecToJson).length),
      (vecs.map vecToJson)[i] = vecToJson vecs[i] := by
  have h4x : env.dumps (rowsToNDArr vecs).tolist = .ok line := by
    rw [rowsToNDArr_tolist]; exact h4
  rw [main_success env stdin line _ enc _ h1 h2 h3 h4x h5]
  refine ⟨rfl, rfl, by simpa using hlen, ?_⟩
  intro i hi hi2
  simp

/-- Witness for C3 on the spec's scenario `["hello", "world"]` with a
collaborator returning two 2-dimensional rows. -/
theorem shape_preservation_witness :
    envEx.loads "[\"hello\", \"world\"]" =
      .ok (.arr ((["hello", "world"] : List String).map .str)) ∧
    (Embedding.main envEx "[\"hello\", \"world\"]").stdout =
      ["[[1.0, 0.0], [1.0, 0.0]]"] ∧
    (Embedding.main envEx "[\"hello\", \"world\"]").exitCode = 0 := by
  have h := shape_preservation envEx "[\"hello\", \"world\"]" ["hello", "world"]
    encodeEx [[1, 0], [1, 0]] 2 "[[1.0, 0.0], [1.0, 0.0]]"
    rfl rfl rfl rfl (by decide) rfl rfl
  exact ⟨rfl, h.1, h.2.1⟩

/-- C8: the embedded run is a pure function of the stdin text and the
environment (the library and collaborator behaviours), so two runs
with the same stdin and the same deterministic collaborator produce
identical stdout, stderr and exit code. -/
theorem determinism (env1 env2 : Env) (s1 s2 : String)
    (henv : env1 = env2) (hs : s1 = s2) :
    (Embedding.main env1 s1).stdout = (Embedding.main env2 s2).stdout ∧
    (Embedding.main env1 s1).stderr = (Embedding.main env2 s2).stderr ∧
    (Embedding.main env1 s1).exitCode = (Embedding.main env2 s2).exitCode := by
  subst henv; subst hs
  exact ⟨rfl, rfl, rfl⟩

/-- Witness for C8: two runs of `envEx` on `[]`. -/
theorem determinism_witness :
    (Embedding.main envEx "[]").stdout = (Embedding.main envEx "[]").stdout ∧
    (Embedding.main envEx "[]").stderr = (Embedding.main envEx "[]").stderr ∧
    (Embedding.main envEx "[]").exitCode = (Embedding.main envEx "[]").exitCode :=
  determinism envEx envEx "[]" "[]" rfl rfl

/-- C9: the program performs no shape validation after `json.loads` —
whatever value parsing returns is forwarded unchanged to `encode`;
the run fails iff the collaborator (or a later step) raises, and when
`encode` accepts the value the run serializes the result and exits
0. -/
theorem no_shape_validation (env : Env) (stdin : String) (v : JValue)
    (enc : JValue → Except String NDArr)
    (h1 : env.loads stdin = .ok v) (h2 : env.loadModel = .ok enc) :
    (Embedding.main env stdin).encodeCalls = [v] ∧
    (∀ e, enc v = .error e →
      (Embedding.main env stdin).exitCode = 1 ∧
      (Embedding.main env stdin).stderr = ["Error: " ++ e] ∧
      (Embedding.main env stdin).stdout = []) ∧
    (∀ a line, enc v = .ok a → env.dumps a.tolist = .ok line →
      env.printExc line = none →
      (Embedding.main env stdin).exitCode = 0 ∧
      (Embedding.main env stdin).stdout = [line]) := by
  refine ⟨main_calls_single env stdin v enc h1 h2, ?_, ?_⟩
  · intro e h3
    rw [main_encode_error env stdin e v enc h1 h2 h3]
    exact ⟨rfl, rfl, rfl⟩
  · intro a line h3 h4 h5
    rw [main_success env stdin line v enc a h1 h2 h3 h4 h5]
    exact ⟨rfl, rfl⟩

/-- Witness for C9 on the bare number `5`: it is forwarded to
`encode`, which raises, so the run fails — by the collaborator's
doing, not the program's. -/
theorem no_shape_validation_witness :
    envEx.loads "5" = .ok (.num 5) ∧
    (Embedding.main envEx "5").encodeCalls = [JValue.num 5] ∧
    (Embedding.main envEx "5").exitCode = 1 ∧
    (Embedding.main envEx "5").stderr = ["Error: 0"] := by
  have h := no_shape_validation envEx "5" (.num 5) encodeEx rfl rfl
  have h2 := h.2.1 "0" rfl
  exact ⟨rfl, h.1, h2.1, h2.2.1⟩

/-- C10: the single `try/except` also encloses the Serialize and Emit
steps — a failure of `json.dumps` or of `print` after a successful
`encode` still yields the `Error:` stderr line and exit code 1, not an
uncaught crash. -/
theorem handler_covers_serialize_emit (env : Env) (stdin : String)
    (v : JValue) (enc : JValue → Except String NDArr) (a : NDArr)
    (h1 : env.loads stdin = .ok v) (h2 : env.loadModel = .ok enc)
    (h3 : enc v = .ok a) :
    (∀ e, env.dumps a.tolist = .error e →
      Embedding.main env stdin = failWith [v] e) ∧
    (∀ line e, env.dumps a.tolist = .ok line → env.printExc line = some e →
      Embedding.main env stdin = failWith [v] e) :=
  ⟨fun e h4 => main_dumps_error env stdin e v enc a h1 h2 h3 h4,
   fun line e h4 h5 => main_print_error env stdin e line v enc a h1 h2 h3 h4 h5⟩

/-- Witness for C10: a raising `json.dumps` and a raising `print` both
end in the handled `Error:`/exit-1 outcome. -/
theorem handler_covers_serialize_emit_witness :
    Embedding.main envDumpsErr "[]" = failWith [.arr []] "Circular reference detected" ∧
    Embedding.main envPrintErr "[]" = failWith [.arr []] "Broken pipe" :=
  ⟨(handler_covers_serialize_emit envDumpsErr "[]" (.arr []) encodeEx (.axis [])
      rfl rfl rfl).1 "Circular reference detected" rfl,
   (handler_covers_serialize_emit envPrintErr "[]" (.arr []) encodeEx (.axis [])
      rfl rfl rfl).2 "[]" "Broken pipe" rfl rfl⟩
